import Mathlib

/-!
Shallow embedding of the indicator/scoring pipeline of the crypto analysis
bot (src/tech_analysis.py, src/report_formatter.py, src/data_fetcher.py).
Prices and volumes are modelled as rationals; the discrete condition labels
produced by the classifiers are modelled as strings, exactly as in the
Python source.
-/

namespace CryptoBot

/-- One OHLCV candle (a row of the pandas dataframe). The field `open_`
stands for the Python column `open` (`open` is a Lean keyword). -/
structure Candle where
  open_ : ℚ
  high : ℚ
  low : ℚ
  close : ℚ
  volume : ℚ
  deriving Repr, DecidableEq

/-! ## Trade level calculator (report_formatter.py, `_calculate_trade_levels`) -/

/-- Fallback price (lines 108-110): a zero or missing anchor close is
replaced by the placeholder price 1000. -/
def effective_price (anchorClose : ℚ) : ℚ :=
  if anchorClose = 0 then 1000 else anchorClose

/-- Intraday stop-loss (lines 114-119): BUY ⇒ price×0.985, else price×1.015. -/
def intraday_sl (price : ℚ) (action : String) : ℚ :=
  if action = "BUY" then price * 0.985 else price * 1.015

/-- Intraday take-profit (lines 114-119): BUY ⇒ price×1.030, else price×0.970. -/
def intraday_tp (price : ℚ) (action : String) : ℚ :=
  if action = "BUY" then price * 1.030 else price * 0.970

/-- Swing stop-loss (lines 125-130): BUY ⇒ price×0.95, else price×1.05. -/
def swing_sl (price : ℚ) (action : String) : ℚ :=
  if action = "BUY" then price * 0.95 else price * 1.05

/-- Swing take-profit (lines 125-130): BUY ⇒ price×1.10, else price×0.90. -/
def swing_tp (price : ℚ) (action : String) : ℚ :=
  if action = "BUY" then price * 1.10 else price * 0.90

/-- Guarded ratio (lines 121 and 132): abs((tp - price) / (sl - price))
when the stop differs from the price, else 1.0. -/
def reward_risk (price sl tp : ℚ) : ℚ :=
  if sl = price then 1 else |(tp - price) / (sl - price)|

/-- Intraday reward:risk for a given anchor close and action (line 121). -/
def intraday_rr (anchorClose : ℚ) (action : String) : ℚ :=
  let price := effective_price anchorClose
  reward_risk price (intraday_sl price action) (intraday_tp price action)

/-- Swing reward:risk for a given anchor close and action (line 132). -/
def swing_rr (anchorClose : ℚ) (action : String) : ℚ :=
  let price := effective_price anchorClose
  reward_risk price (swing_sl price action) (swing_tp price action)

/-! ## Action decision (report_formatter.py, `_determine_action`) -/

/-- Bullish signal count (lines 171-177): one each for a bullish trend,
a bullish/oversold RSI condition, and a bullish MACD condition. -/
def bullish_signals (trend rsi_condition macd_condition : String) : ℕ :=
  (if trend = "bullish" ∨ trend = "strong_bullish" then 1 else 0)
  + (if rsi_condition = "bullish" ∨ rsi_condition = "oversold" then 1 else 0)
  + (if macd_condition = "bullish" then 1 else 0)

/-- Bearish signal count (lines 179-185). -/
def bearish_signals (trend rsi_condition macd_condition : String) : ℕ :=
  (if trend = "bearish" ∨ trend = "strong_bearish" then 1 else 0)
  + (if rsi_condition = "bearish" ∨ rsi_condition = "overbought" then 1 else 0)
  + (if macd_condition = "bearish" then 1 else 0)

/-- Embeds `_determine_action` (lines 158-196) for a present analysis record,
parameterised by the three extracted condition labels (a missing key
yields the default label "neutral" in the source, i.e. a particular
string here). -/
def determine_action (trend rsi_condition macd_condition : String) : String :=
  if bullish_signals trend rsi_condition macd_condition
      > bearish_signals trend rsi_condition macd_condition then "BUY"
  else if bearish_signals trend rsi_condition macd_condition
      > bullish_signals trend rsi_condition macd_condition then "SELL"
  else "HOLD"

/-- Modelled from the spec: the bullish↔bearish swap on trend labels used to
state the symmetry property ("swapping every bullish-condition input for its
bearish counterpart"). -/
def swap_trend (t : String) : String :=
  if t = "bullish" then "bearish"
  else if t = "strong_bullish" then "strong_bearish"
  else if t = "bearish" then "bullish"
  else if t = "strong_bearish" then "strong_bullish"
  else t

/-- Modelled from the spec: the bullish↔bearish swap on RSI condition labels
(oversold is the bullish-leaning label, overbought the bearish-leaning one). -/
def swap_rsi (r : String) : String :=
  if r = "bullish" then "bearish"
  else if r = "bearish" then "bullish"
  else if r = "oversold" then "overbought"
  else if r = "overbought" then "oversold"
  else r

/-- Modelled from the spec: the bullish↔bearish swap on MACD condition labels. -/
def swap_macd (m : String) : String :=
  if m = "bullish" then "bearish"
  else if m = "bearish" then "bullish"
  else m

/-- Modelled from the spec: BUY↔SELL flip on actions (HOLD is fixed). -/
def flip_action (a : String) : String :=
  if a = "BUY" then "SELL"
  else if a = "SELL" then "BUY"
  else a

/-! ## Confidence score (tech_analysis.py, `_calculate_confidence_score`) -/

/-- Front match: `matches_front n h` is true when the character list `h`
starts with `n`. -/
def matches_front : List Char → List Char → Bool
  | [], _ => true
  | _ :: _, [] => false
  | a :: as, b :: bs => a = b && matches_front as bs

/-- Substring occurrence: `has_sub n h` is true when `n` occurs as a
contiguous run inside `h`. -/
def has_sub (needle : List Char) : List Char → Bool
  | [] => needle.isEmpty
  | b :: t => matches_front needle (b :: t) || has_sub needle t

/-- The Python substring membership test checking whether the text
crossover occurs inside `s`, used verbatim at line 364. -/
def contains_crossover (s : String) : Bool :=
  has_sub "crossover".data s.data

/-- Embeds `_calculate_confidence_score` (lines 347-374), parameterised by the
condition labels and the support/resistance strength count extracted from
the analysis record (missing keys default to "neutral" / "no_crossover" /
0 in the source). -/
def calculate_confidence_score (rsi_condition macd_condition crossover : String)
    (sr_strength : ℕ) : ℚ :=
  let base : ℚ := 50
  let withRsi := base + (if rsi_condition = "bullish" ∨ rsi_condition = "bearish"
    ∨ rsi_condition = "oversold" ∨ rsi_condition = "overbought" then 15 else 0)
  let withMacd := withRsi + (if macd_condition = "bullish" ∨ macd_condition = "bearish"
    then 15 else 0)
  let withCross := withMacd + (if contains_crossover crossover then 10 else 0)
  let withSr := withCross + ((min (sr_strength * 2) 10 : ℕ) : ℚ)
  min (max withSr 0) 100

/-! ## Sentiment score (report_formatter.py, `_calculate_sentiment_score`) -/

/-- The inner `analyze_sentiment` closure (lines 219-253) for a present
analysis record, parameterised by the four extracted labels. -/
def analyze_sentiment (trend rsi_condition macd_condition obv_trend_label : String) : ℚ :=
  let base : ℚ := 0.5
  let withTrend := base + (if trend = "bullish" ∨ trend = "strong_bullish" then (0.15 : ℚ)
    else if trend = "bearish" ∨ trend = "strong_bearish" then -0.15 else 0)
  let withRsi := withTrend + (if rsi_condition = "bullish" ∨ rsi_condition = "oversold"
    then (0.125 : ℚ) else if rsi_condition = "bearish" ∨ rsi_condition = "overbought"
    then -0.125 else 0)
  let withMacd := withRsi + (if macd_condition = "bullish" then (0.125 : ℚ)
    else if macd_condition = "bearish" then -0.125 else 0)
  let withObv := withMacd + (if obv_trend_label = "accumulation" then (0.1 : ℚ)
    else if obv_trend_label = "distribution" then -0.1 else 0)
  max 0 (min 1 withObv)

/-! ## Enhanced trend (tech_analysis.py, `_determine_enhanced_trend`) -/

/-- Python list slice `l[-k:]` / pandas `.tail(k)`: the last `k` elements
(the whole list when it is shorter than `k`). -/
def lastN (k : ℕ) (l : List ℚ) : List ℚ :=
  l.drop (l.length - k)

/-- The last value of the rolling mean of width `period`: the mean of the last `period`
closes, `none` (pandas NaN) when fewer than `period` rows exist. -/
def sma_last (closes : List ℚ) (period : ℕ) : Option ℚ :=
  if closes.length < period then none
  else some ((lastN period closes).sum / (period : ℚ))

/-- Embeds `_determine_enhanced_trend` (lines 295-345), with NaN moving averages
modelled as `none` (every NaN comparison in Python is False). The empty
series raises IndexError at the last-element access and the handler
returns "neutral". -/
def determine_enhanced_trend (closes : List ℚ) (rsi_condition macd_condition : String) :
    String :=
  match closes.getLast? with
  | none => "neutral"
  | some current_price =>
    let pScore : ℤ :=
      match sma_last closes 20, sma_last closes 50 with
      | some sma20, some sma50 =>
        if current_price > sma20 ∧ sma20 > sma50 then 2
        else if current_price > sma20 then 1
        else if current_price < sma20 ∧ sma20 < sma50 then -2
        else if current_price < sma20 then -1
        else 0
      | some sma20, none =>
        if current_price > sma20 then 1
        else if current_price < sma20 then -1
        else 0
      | none, _ => 0
    let rScore : ℤ := if rsi_condition = "bullish" ∨ rsi_condition = "oversold" then 1
      else if rsi_condition = "bearish" ∨ rsi_condition = "overbought" then -1 else 0
    let mScore : ℤ := if macd_condition = "bullish" then 1
      else if macd_condition = "bearish" then -1 else 0
    let total := pScore + rScore + mScore
    if total ≥ 3 then "strong_bullish"
    else if total ≥ 1 then "bullish"
    else if total ≤ -3 then "strong_bearish"
    else if total ≤ -1 then "bearish"
    else "neutral"

/-- The price-vs-moving-averages contribution of `_determine_enhanced_trend`
(lines 302-311), extracted as a standalone score on the close series. -/
def price_vs_ma_score (closes : List ℚ) : ℤ :=
  match closes.getLast? with
  | none => 0
  | some current_price =>
    match sma_last closes 20, sma_last closes 50 with
    | some sma20, some sma50 =>
      if current_price > sma20 ∧ sma20 > sma50 then 2
      else if current_price > sma20 then 1
      else if current_price < sma20 ∧ sma20 < sma50 then -2
      else if current_price < sma20 then -1
      else 0
    | some sma20, none =>
      if current_price > sma20 then 1
      else if current_price < sma20 then -1
      else 0
    | none, _ => 0

/-- Modelled from the spec: the RSI vote of the aggregate-trend claim,
"+1 if bullish/oversold and -1 if bearish/overbought". -/
def spec_rsi_vote (rsi_condition : String) : ℤ :=
  if rsi_condition = "bullish" ∨ rsi_condition = "oversold" then 1
  else if rsi_condition = "bearish" ∨ rsi_condition = "overbought" then -1
  else 0

/-- Modelled from the spec: the MACD vote of the aggregate-trend claim,
"+1 if bullish and -1 if bearish". -/
def spec_macd_vote (macd_condition : String) : ℤ :=
  if macd_condition = "bullish" then 1
  else if macd_condition = "bearish" then -1
  else 0

/-- Modelled from the spec: the threshold map of the aggregate-trend claim,
"≥3 strong-bullish, ≥1 bullish, ≤−3 strong-bearish, ≤−1 bearish, else
neutral". -/
def spec_trend_thresholds (total : ℤ) : String :=
  if total ≥ 3 then "strong_bullish"
  else if total ≥ 1 then "bullish"
  else if total ≤ -3 then "strong_bearish"
  else if total ≤ -1 then "bearish"
  else "neutral"

/-! ## On-Balance Volume (tech_analysis.py, `calculate_obv`) -/

/-- One step of the OBV loop (lines 383-389): add the volume of the bar when the
close rose, subtract it when it fell, carry the accumulator when unchanged. -/
def obv_step (prev_close obv_prev : ℚ) (c : Candle) : ℚ :=
  if c.close > prev_close then obv_prev + c.volume
  else if c.close < prev_close then obv_prev - c.volume
  else obv_prev

/-- The OBV values for bars 1.. given the close of the previous bar and the
accumulator so far. -/
def obv_go (prev_close acc : ℚ) : List Candle → List ℚ
  | [] => []
  | c :: rest => obv_step prev_close acc c :: obv_go c.close (obv_step prev_close acc c) rest

/-- Embeds `calculate_obv` (lines 376-393): the first bar seeds the
accumulator with its own volume, then the loop
runs; the empty dataframe hits the except path and yields an empty series. -/
def calculate_obv : List Candle → List ℚ
  | [] => []
  | c :: rest => c.volume :: obv_go c.close c.volume rest

/-- The OBV trend label of `analyze_timeframe` (lines 200-207):
the label is "accumulation" when the last OBV value strictly exceeds the
fifth-from-last one, else "distribution".
With fewer than 5 bars `iloc[-5]` raises IndexError, the analysis record
carries no OBV trend, modelled as `none`. -/
def obv_trend (df : List Candle) : Option String :=
  let obv := calculate_obv df
  if obv.length < 5 then none
  else some (if obv.getD (obv.length - 1) 0 > obv.getD (obv.length - 5) 0
    then "accumulation" else "distribution")

/-! ## Support/resistance (tech_analysis.py, `identify_support_resistance`) -/

/-- The pandas centred rolling window of size 20 at row `i`: rows
`[i-10, i+9]`, defined only when the full window fits (min_periods equals
the window size, so partial windows are NaN). -/
def centered_window (l : List ℚ) (i : ℕ) : Option (List ℚ) :=
  if 10 ≤ i ∧ i + 10 ≤ l.length then some ((l.drop (i - 10)).take 20) else none

/-- Row `i` is a pivot high: its high equals the centred rolling max
(NaN windows compare False). -/
def is_pivot_high (highs : List ℚ) (i : ℕ) : Bool :=
  match centered_window highs i with
  | some w => decide (w.max? = some (highs.getD i 0))
  | none => false

/-- Row `i` is a pivot low: its low equals the centred rolling min. -/
def is_pivot_low (lows : List ℚ) (i : ℕ) : Bool :=
  match centered_window lows i with
  | some w => decide (w.min? = some (lows.getD i 0))
  | none => false

/-- The pivot highs (line 103): the highs at pivot rows, last 5 kept. -/
def pivot_highs (df : List Candle) : List ℚ :=
  let highs := df.map Candle.high
  lastN 5 (((List.range df.length).filter fun i => is_pivot_high highs i).map
    fun i => highs.getD i 0)

/-- The pivot lows (line 104): the lows at pivot rows, last 5 kept. -/
def pivot_lows (df : List Candle) : List ℚ :=
  let lows := df.map Candle.low
  lastN 5 (((List.range df.length).filter fun i => is_pivot_low lows i).map
    fun i => lows.getD i 0)

/-- The record returned by `identify_support_resistance`. -/
structure SRLevels where
  resistance : List ℚ
  support : List ℚ
  current_price : ℚ
  strength : ℕ
  deriving Repr, DecidableEq

/-- Embeds `identify_support_resistance` (lines 95-121). On the empty dataframe
`iloc[-1]` raises and the except path returns empty lists with price 0. -/
def identify_support_resistance (df : List Candle) : SRLevels :=
  match df.getLast? with
  | none => ⟨[], [], 0, 0⟩
  | some lastCandle =>
    let current_price := lastCandle.close
    let resistance_levels := (pivot_highs df).filter fun x => current_price * 1.001 < x
    let support_levels := (pivot_lows df).filter fun x => x < current_price * 0.999
    { resistance := if resistance_levels = [] then [current_price * 1.02]
      else lastN 3 resistance_levels
      support := if support_levels = [] then [current_price * 0.98]
      else lastN 3 support_levels
      current_price := current_price
      strength := resistance_levels.length + support_levels.length }

/-! ## Anchor candle (data_fetcher.py, `get_anchor_candle`) -/

/-- The record returned by `get_anchor_candle` (the timestamp column is not
modelled; it carries no numeric content). -/
structure AnchorCandle where
  open_ : ℚ
  high : ℚ
  low : ℚ
  close : ℚ
  volume : ℚ
  validated : Bool
  deriving Repr, DecidableEq

/-- Embeds `get_anchor_candle` (lines 228-248): fewer than 2 rows yields the empty
record `{}` (modelled as `none`), otherwise the fields of `df.iloc[-2]`,
the second-to-last row. -/
def get_anchor_candle (df : List Candle) : Option AnchorCandle :=
  if h : df.length < 2 then none
  else
    let c := df.get ⟨df.length - 2, by omega⟩
    some ⟨c.open_, c.high, c.low, c.close, c.volume, true⟩

/-! ## Concrete candle series used as test inputs -/

/-- A candle whose only relevant fields are close and volume. -/
def mkCandle (c v : ℚ) : Candle := ⟨0, 0, 0, c, v⟩

/-- Seven bars with closes 1,2,3,2,2,2,3 and volume 10 each: OBV is
10,20,30,20,20,20,30, so the last OBV (30) ties the fifth-from-last (30)
but strictly exceeds the value 5 bars prior (20). -/
def ex_c3 : List Candle :=
  [mkCandle 1 10, mkCandle 2 10, mkCandle 3 10, mkCandle 2 10,
   mkCandle 2 10, mkCandle 2 10, mkCandle 3 10]

/-- Two bars with strictly rising closes but a negative second volume. -/
def ex_c9 : List Candle := [mkCandle 1 10, mkCandle 2 (-5)]

/-- Two bars with strictly rising closes and nonnegative volumes. -/
def ex_c9w : List Candle := [mkCandle 1 10, mkCandle 2 20]

/-- A single candle whose close is 0. -/
def ex_c5 : List Candle := [mkCandle 0 0]

/-- A single candle whose close is 100. -/
def ex_c5w : List Candle := [mkCandle 100 3]

/-- Two distinct candles. -/
def ex_c10 : List Candle := [⟨1, 2, 3, 4, 5⟩, ⟨6, 7, 8, 9, 10⟩]

end CryptoBot

namespace CryptoBot

/-- An anchor close of 2000 with a BUY intraday action yields reward:risk
|2060 − 2000| / |1970 − 2000| = 2, and the constant 2 is not 3. -/
theorem c1_counterexample :
    intraday_rr 2000 "BUY" = 2 ∧ (2 : ℚ) ≠ 3 := by
  constructor
  · norm_num [intraday_rr, reward_risk, intraday_sl, intraday_tp, effective_price]
  · norm_num

/-- C1 (amended): for an anchor candle with close = 2000 and action BUY on
the intraday horizon, the trade level calculator produces stop-loss 1970.0,
take-profit 2060.0, and reward:risk ratio 2.0. -/
theorem c1_trade_levels :
    intraday_sl (effective_price 2000) "BUY" = 1970
    ∧ intraday_tp (effective_price 2000) "BUY" = 2060
    ∧ intraday_rr 2000 "BUY" = 2 := by
  refine ⟨?_, ?_, ?_⟩ <;>
    norm_num [intraday_rr, reward_risk, intraday_sl, intraday_tp, effective_price]

/-- C2: on an analysis whose RSI and MACD conditions are neutral, whose
crossover field is "no_crossover" and whose support/resistance strength is 0,
the confidence score is 60, not 50: the Python substring test
also matches "no_crossover", so the +10 crossover
bonus is granted even though no crossover was detected. -/
theorem c2_confidence_no_crossover :
    calculate_confidence_score "neutral" "neutral" "no_crossover" 0 = 60
    ∧ contains_crossover "no_crossover" = true := by
  have hc : contains_crossover "no_crossover" = true := by decide
  refine ⟨?_, hc⟩
  simp only [calculate_confidence_score, hc]
  rw [if_neg (by decide : ¬(("neutral" : String) = "bullish" ∨ ("neutral" : String) = "bearish"
        ∨ ("neutral" : String) = "oversold" ∨ ("neutral" : String) = "overbought")),
    if_neg (by decide : ¬(("neutral" : String) = "bullish" ∨ ("neutral" : String) = "bearish"))]
  norm_num

/-- C4: for arbitrary combinations of condition labels, the confidence
score lies in [0, 100] and the sentiment score lies in [0, 1]. -/
theorem c4_score_bounds (rsi macd cross : String) (strength : ℕ)
    (trend rsi2 macd2 obvLabel : String) :
    (0 ≤ calculate_confidence_score rsi macd cross strength
      ∧ calculate_confidence_score rsi macd cross strength ≤ 100)
    ∧ (0 ≤ analyze_sentiment trend rsi2 macd2 obvLabel
      ∧ analyze_sentiment trend rsi2 macd2 obvLabel ≤ 1) := by
  refine ⟨⟨?_, ?_⟩, ?_, ?_⟩
  · exact le_min (le_max_right _ _) (by norm_num)
  · exact min_le_right _ _
  · exact le_max_left _ _
  · exact max_le (by norm_num) (min_le_left _ _)

/-- C4 instantiated at concrete decisive labels and strength 7. -/
theorem c4_score_bounds_witness :
    (0 ≤ calculate_confidence_score "bullish" "bearish" "bullish_crossover" 7
      ∧ calculate_confidence_score "bullish" "bearish" "bullish_crossover" 7 ≤ 100)
    ∧ (0 ≤ analyze_sentiment "strong_bullish" "oversold" "bullish" "accumulation"
      ∧ analyze_sentiment "strong_bullish" "oversold" "bullish" "accumulation" ≤ 1) :=
  c4_score_bounds "bullish" "bearish" "bullish_crossover" 7
    "strong_bullish" "oversold" "bullish" "accumulation"

/-- The guarded reward:risk expression with a stop distinct from the price
is the ratio of the absolute distances. -/
theorem reward_risk_of_ne (price sl tp : ℚ) (h : sl ≠ price) :
    reward_risk price sl tp = |tp - price| / |sl - price| := by
  rw [reward_risk, if_neg h, abs_div]

/-- C8: for every positive anchor close and every action, both horizon
reward:risk ratios equal |target − price| / |stop − price|, are nonnegative,
their denominators are nonzero (no division by zero arises), and the guard
defines the ratio as 1.0 whenever the stop equals the price. -/
theorem c8_reward_risk (p : ℚ) (a : String) (hp : 0 < p) :
    (intraday_rr p a = |intraday_tp p a - p| / |intraday_sl p a - p|
      ∧ 0 ≤ intraday_rr p a
      ∧ intraday_sl p a - p ≠ 0)
    ∧ (swing_rr p a = |swing_tp p a - p| / |swing_sl p a - p|
      ∧ 0 ≤ swing_rr p a
      ∧ swing_sl p a - p ≠ 0)
    ∧ (∀ sl tp : ℚ, sl = p → reward_risk p sl tp = 1) := by
  have hp0 : p ≠ 0 := ne_of_gt hp
  have hep : effective_price p = p := by simp [effective_price, hp0]
  have hisl : intraday_sl p a ≠ p := by
    by_cases ha : a = "BUY" <;> simp [intraday_sl, ha] <;> intro h <;>
      exact absurd (by linarith : p = 0) hp0
  have hssl : swing_sl p a ≠ p := by
    by_cases ha : a = "BUY" <;> simp [swing_sl, ha] <;> intro h <;>
      exact absurd (by linarith : p = 0) hp0
  refine ⟨⟨?_, ?_, ?_⟩, ⟨?_, ?_, ?_⟩, ?_⟩
  · rw [intraday_rr, hep, reward_risk_of_ne _ _ _ hisl]
  · rw [intraday_rr, hep, reward_risk_of_ne _ _ _ hisl]
    positivity
  · exact sub_ne_zero_of_ne hisl
  · rw [swing_rr, hep, reward_risk_of_ne _ _ _ hssl]
  · rw [swing_rr, hep, reward_risk_of_ne _ _ _ hssl]
    positivity
  · exact sub_ne_zero_of_ne hssl
  · intro sl tp h
    rw [reward_risk, if_pos h]

/-- C8 instantiated at anchor close 2000 and action BUY. -/
theorem c8_reward_risk_witness :
    (intraday_rr 2000 "BUY" = |intraday_tp 2000 "BUY" - 2000| / |intraday_sl 2000 "BUY" - 2000|
      ∧ 0 ≤ intraday_rr 2000 "BUY"
      ∧ intraday_sl 2000 "BUY" - 2000 ≠ 0)
    ∧ (swing_rr 2000 "BUY" = |swing_tp 2000 "BUY" - 2000| / |swing_sl 2000 "BUY" - 2000|
      ∧ 0 ≤ swing_rr 2000 "BUY"
      ∧ swing_sl 2000 "BUY" - 2000 ≠ 0)
    ∧ (∀ sl tp : ℚ, sl = 2000 → reward_risk 2000 sl tp = 1) :=
  c8_reward_risk 2000 "BUY" (by norm_num)

/-- Swapping a trend label turns the bullish labels into exactly the
bearish ones. -/
theorem swap_trend_bullish (t : String) :
    (swap_trend t = "bullish" ∨ swap_trend t = "strong_bullish")
      ↔ (t = "bearish" ∨ t = "strong_bearish") := by
  unfold swap_trend
  split_ifs with h1 h2 h3 h4 <;> simp_all

/-- Swapping a trend label turns the bearish labels into exactly the
bullish ones. -/
theorem swap_trend_bearish (t : String) :
    (swap_trend t = "bearish" ∨ swap_trend t = "strong_bearish")
      ↔ (t = "bullish" ∨ t = "strong_bullish") := by
  unfold swap_trend
  split_ifs with h1 h2 h3 h4 <;> simp_all

/-- Swapping an RSI label turns bullish/oversold into exactly
bearish/overbought. -/
theorem swap_rsi_bullish (r : String) :
    (swap_rsi r = "bullish" ∨ swap_rsi r = "oversold")
      ↔ (r = "bearish" ∨ r = "overbought") := by
  unfold swap_rsi
  split_ifs with h1 h2 h3 h4 <;> simp_all

/-- Swapping an RSI label turns bearish/overbought into exactly
bullish/oversold. -/
theorem swap_rsi_bearish (r : String) :
    (swap_rsi r = "bearish" ∨ swap_rsi r = "overbought")
      ↔ (r = "bullish" ∨ r = "oversold") := by
  unfold swap_rsi
  split_ifs with h1 h2 h3 h4 <;> simp_all

/-- Swapping a MACD label exchanges bullish and bearish. -/
theorem swap_macd_bullish (m : String) :
    swap_macd m = "bullish" ↔ m = "bearish" := by
  unfold swap_macd
  split_ifs with h1 h2 <;> simp_all

/-- Swapping a MACD label exchanges bearish and bullish. -/
theorem swap_macd_bearish (m : String) :
    swap_macd m = "bearish" ↔ m = "bullish" := by
  unfold swap_macd
  split_ifs with h1 h2 <;> simp_all

/-- The bullish signal count of the swapped labels is the bearish signal
count of the original labels. -/
theorem bullish_signals_swap (t r m : String) :
    bullish_signals (swap_trend t) (swap_rsi r) (swap_macd m) = bearish_signals t r m := by
  unfold bullish_signals bearish_signals
  rw [if_congr (swap_trend_bullish t) rfl rfl, if_congr (swap_rsi_bullish r) rfl rfl,
    if_congr (swap_macd_bullish m) rfl rfl]

/-- The bearish signal count of the swapped labels is the bullish signal
count of the original labels. -/
theorem bearish_signals_swap (t r m : String) :
    bearish_signals (swap_trend t) (swap_rsi r) (swap_macd m) = bullish_signals t r m := by
  unfold bullish_signals bearish_signals
  rw [if_congr (swap_trend_bearish t) rfl rfl, if_congr (swap_rsi_bearish r) rfl rfl,
    if_congr (swap_macd_bearish m) rfl rfl]

/-- C6: the action decision is a majority vote over the three signals;
swapping every bullish-condition input for its bearish counterpart flips
BUY↔SELL (HOLD is fixed), and an exact tie of signal counts yields HOLD. -/
theorem c6_action_symmetry (t r m : String) :
    determine_action (swap_trend t) (swap_rsi r) (swap_macd m)
      = flip_action (determine_action t r m)
    ∧ (bullish_signals t r m = bearish_signals t r m
      → determine_action t r m = "HOLD")
    ∧ (bearish_signals t r m < bullish_signals t r m
      → determine_action t r m = "BUY")
    ∧ (bullish_signals t r m < bearish_signals t r m
      → determine_action t r m = "SELL") := by
  refine ⟨?_, ?_, ?_, ?_⟩
  · unfold determine_action
    rw [bullish_signals_swap, bearish_signals_swap]
    rcases Nat.lt_trichotomy (bullish_signals t r m) (bearish_signals t r m) with h | h | h
    · rw [if_pos h,
        if_neg (show ¬ bearish_signals t r m < bullish_signals t r m by omega),
        if_pos h]
      decide
    · rw [if_neg (show ¬ bullish_signals t r m < bearish_signals t r m by omega),
        if_neg (show ¬ bearish_signals t r m < bullish_signals t r m by omega),
        if_neg (show ¬ bearish_signals t r m < bullish_signals t r m by omega),
        if_neg (show ¬ bullish_signals t r m < bearish_signals t r m by omega)]
      decide
    · rw [if_neg (show ¬ bullish_signals t r m < bearish_signals t r m by omega),
        if_pos h, if_pos h]
      decide
  · intro h
    unfold determine_action
    rw [if_neg (show ¬ bearish_signals t r m < bullish_signals t r m by omega),
      if_neg (show ¬ bullish_signals t r m < bearish_signals t r m by omega)]
  · intro h
    unfold determine_action
    rw [if_pos h]
  · intro h
    unfold determine_action
    rw [if_neg (show ¬ bearish_signals t r m < bullish_signals t r m by omega), if_pos h]

/-- C6 instantiated: a bullish trend with neutral RSI and MACD swaps to a
bearish one and SELL flips to BUY; an all-neutral analysis is a tie and
yields HOLD. -/
theorem c6_action_symmetry_witness :
    determine_action (swap_trend "bullish") (swap_rsi "neutral") (swap_macd "neutral")
      = flip_action (determine_action "bullish" "neutral" "neutral")
    ∧ determine_action "neutral" "neutral" "neutral" = "HOLD" :=
  ⟨(c6_action_symmetry "bullish" "neutral" "neutral").1,
   (c6_action_symmetry "neutral" "neutral" "neutral").2.1 (by decide)⟩

/-- C7: the enhanced trend label is the threshold map applied to the sum of
the price-vs-moving-averages score, the RSI vote and the MACD vote, and the
price-vs-moving-averages score always lies in {-2,-1,0,1,2}. -/
theorem c7_enhanced_trend (closes : List ℚ) (r m : String) (h : closes ≠ []) :
    determine_enhanced_trend closes r m
      = spec_trend_thresholds (price_vs_ma_score closes + spec_rsi_vote r + spec_macd_vote m)
    ∧ price_vs_ma_score closes ∈ ({-2, -1, 0, 1, 2} : Finset ℤ) := by
  have hl := List.getLast?_eq_getLast (l := closes) h
  constructor
  · unfold determine_enhanced_trend spec_trend_thresholds price_vs_ma_score
      spec_rsi_vote spec_macd_vote
    rw [hl]
  · unfold price_vs_ma_score
    rw [hl]
    cases h20 : sma_last closes 20 with
    | none => simp
    | some a =>
      cases h50 : sma_last closes 50 with
      | none => simp only []; split_ifs <;> decide
      | some b => simp only []; split_ifs <;> decide

/-- C7 instantiated at the one-bar series [1] with neutral conditions. -/
theorem c7_enhanced_trend_witness :
    determine_enhanced_trend [1] "neutral" "neutral"
      = spec_trend_thresholds (price_vs_ma_score [1]
        + spec_rsi_vote "neutral" + spec_macd_vote "neutral")
    ∧ price_vs_ma_score [1] ∈ ({-2, -1, 0, 1, 2} : Finset ℤ) :=
  c7_enhanced_trend [1] "neutral" "neutral" (by simp)

/-- C3: on the seven-bar series ex_c3 the OBV series is
10,20,30,20,20,20,30; the current OBV (30) strictly exceeds the OBV value
5 bars prior (the value at index 1, namely 20), yet the reported trend is
"distribution", because the code compares against `obv.iloc[-5]` (index 2,
value 30), which is only 4 bars prior. -/
theorem c3_counterexample :
    obv_trend ex_c3 = some "distribution"
    ∧ calculate_obv ex_c3 = [10, 20, 30, 20, 20, 20, 30]
    ∧ (calculate_obv ex_c3).getD ((calculate_obv ex_c3).length - 1 - 5) 0
      < (calculate_obv ex_c3).getD ((calculate_obv ex_c3).length - 1) 0 := by
  have h : calculate_obv ex_c3 = [10, 20, 30, 20, 20, 20, 30] := by
    norm_num [ex_c3, mkCandle, calculate_obv, obv_go, obv_step]
  refine ⟨?_, h, ?_⟩
  · norm_num [obv_trend, ex_c3, mkCandle, calculate_obv, obv_go, obv_step, List.getD]
  · rw [h]
    norm_num [List.getD]

/-- The OBV series has one entry per candle. -/
theorem obv_go_length (l : List Candle) : ∀ pc acc : ℚ, (obv_go pc acc l).length = l.length := by
  induction l with
  | nil => intro pc acc; rfl
  | cons c rest ih => intro pc acc; simp [obv_go, ih]

/-- Length preservation: `calculate_obv` keeps one entry per candle. -/
theorem calculate_obv_length (df : List Candle) : (calculate_obv df).length = df.length := by
  cases df with
  | nil => rfl
  | cons c rest => simp [calculate_obv, obv_go_length]

/-- C3 (amended): for every series of at least 5 candles, the OBV trend is
"accumulation" iff the last OBV value strictly exceeds the fifth-from-last
OBV value (the value 4 bars prior), and "distribution" otherwise. -/
theorem c3_obv_trend (df : List Candle) (h : 5 ≤ df.length) :
    (obv_trend df = some "accumulation"
      ↔ (calculate_obv df).getD ((calculate_obv df).length - 1) 0
        > (calculate_obv df).getD ((calculate_obv df).length - 5) 0)
    ∧ (obv_trend df = some "distribution"
      ↔ ¬ (calculate_obv df).getD ((calculate_obv df).length - 1) 0
        > (calculate_obv df).getD ((calculate_obv df).length - 5) 0) := by
  have hlen : ¬ (calculate_obv df).length < 5 := by
    rw [calculate_obv_length]; omega
  simp only [obv_trend]
  rw [if_neg hlen]
  refine ⟨?_, ?_⟩
  · split_ifs with hc
    · exact iff_of_true rfl hc
    · exact iff_of_false (by simp) hc
  · split_ifs with hc
    · exact iff_of_false (by simp) (not_not_intro hc)
    · exact iff_of_true rfl hc

/-- C3 (amended) instantiated at the seven-bar series ex_c3. -/
theorem c3_obv_trend_witness :
    (obv_trend ex_c3 = some "accumulation"
      ↔ (calculate_obv ex_c3).getD ((calculate_obv ex_c3).length - 1) 0
        > (calculate_obv ex_c3).getD ((calculate_obv ex_c3).length - 5) 0)
    ∧ (obv_trend ex_c3 = some "distribution"
      ↔ ¬ (calculate_obv ex_c3).getD ((calculate_obv ex_c3).length - 1) 0
        > (calculate_obv ex_c3).getD ((calculate_obv ex_c3).length - 5) 0) :=
  c3_obv_trend ex_c3 (by norm_num [ex_c3])

/-- C9: two bars with strictly increasing closes 1,2 but a negative second
volume yield the strictly decreasing OBV series 10,5. -/
theorem c9_counterexample :
    List.Chain' (· < ·) (ex_c9.map Candle.close)
    ∧ calculate_obv ex_c9 = [10, 5]
    ∧ ¬ List.Chain' (· ≤ ·) (calculate_obv ex_c9) := by
  have h : calculate_obv ex_c9 = [10, 5] := by
    norm_num [ex_c9, mkCandle, calculate_obv, obv_go, obv_step]
  refine ⟨?_, h, ?_⟩
  · norm_num [ex_c9, mkCandle]
  · rw [h]
    norm_num

/-- With nonnegative volumes, rising closes make the OBV accumulator
non-decreasing step by step. -/
theorem obv_go_chain_le (rest : List Candle) : ∀ pc acc : ℚ,
    (∀ c ∈ rest, 0 ≤ c.volume) →
    List.Chain' (· < ·) (pc :: rest.map Candle.close) →
    List.Chain' (· ≤ ·) (acc :: obv_go pc acc rest) := by
  induction rest with
  | nil => intro pc acc _ _; simp [obv_go]
  | cons c rest ih =>
    intro pc acc hv hc
    rw [List.map_cons, List.chain'_cons] at hc
    have hstep : obv_step pc acc c = acc + c.volume := by
      rw [obv_step, if_pos hc.1]
    simp only [obv_go, hstep, List.chain'_cons]
    refine ⟨?_, ih c.close (acc + c.volume) (fun x hx => hv x (by simp [hx])) hc.2⟩
    have := hv c (by simp)
    linarith

/-- With nonnegative volumes, falling closes make the OBV accumulator
non-increasing step by step. -/
theorem obv_go_chain_ge (rest : List Candle) : ∀ pc acc : ℚ,
    (∀ c ∈ rest, 0 ≤ c.volume) →
    List.Chain' (· > ·) (pc :: rest.map Candle.close) →
    List.Chain' (· ≥ ·) (acc :: obv_go pc acc rest) := by
  induction rest with
  | nil => intro pc acc _ _; simp [obv_go]
  | cons c rest ih =>
    intro pc acc hv hc
    rw [List.map_cons, List.chain'_cons] at hc
    have hstep : obv_step pc acc c = acc - c.volume := by
      rw [obv_step, if_neg (by exact fun hlt => absurd hc.1 (by exact not_lt_of_gt hlt)),
        if_pos hc.1]
    simp only [obv_go, hstep, List.chain'_cons]
    refine ⟨?_, ih c.close (acc - c.volume) (fun x hx => hv x (by simp [hx])) hc.2⟩
    have := hv c (by simp)
    linarith

/-- C9 (amended): for every candle series with nonnegative volumes, strictly
increasing closes give a non-decreasing OBV series and strictly decreasing
closes give a non-increasing OBV series. -/
theorem c9_obv_monotone (df : List Candle) (hv : ∀ c ∈ df, 0 ≤ c.volume) :
    (List.Chain' (· < ·) (df.map Candle.close) → List.Chain' (· ≤ ·) (calculate_obv df))
    ∧ (List.Chain' (· > ·) (df.map Candle.close) → List.Chain' (· ≥ ·) (calculate_obv df)) := by
  cases df with
  | nil => simp [calculate_obv]
  | cons c rest =>
    constructor
    · intro hc
      rw [List.map_cons] at hc
      simp only [calculate_obv]
      exact obv_go_chain_le rest c.close c.volume (fun x hx => hv x (by simp [hx])) hc
    · intro hc
      rw [List.map_cons] at hc
      simp only [calculate_obv]
      exact obv_go_chain_ge rest c.close c.volume (fun x hx => hv x (by simp [hx])) hc

/-- C9 (amended) instantiated at the two-bar rising series ex_c9w. -/
theorem c9_obv_monotone_witness :
    (List.Chain' (· < ·) (ex_c9w.map Candle.close)
      → List.Chain' (· ≤ ·) (calculate_obv ex_c9w))
    ∧ (List.Chain' (· > ·) (ex_c9w.map Candle.close)
      → List.Chain' (· ≥ ·) (calculate_obv ex_c9w)) :=
  c9_obv_monotone ex_c9w (by norm_num [ex_c9w, mkCandle])

/-- C10: fewer than 2 rows yields the empty record; at least 2 rows yields
exactly the open/high/low/close/volume fields of the second-to-last row. -/
theorem c10_anchor_candle (df : List Candle) :
    (df.length < 2 → get_anchor_candle df = none)
    ∧ ∀ h : 2 ≤ df.length,
      get_anchor_candle df
        = some ⟨(df.get ⟨df.length - 2, by omega⟩).open_,
            (df.get ⟨df.length - 2, by omega⟩).high,
            (df.get ⟨df.length - 2, by omega⟩).low,
            (df.get ⟨df.length - 2, by omega⟩).close,
            (df.get ⟨df.length - 2, by omega⟩).volume, true⟩ := by
  constructor
  · intro h
    simp [get_anchor_candle, h]
  · intro h
    have h2 : ¬ df.length < 2 := by omega
    simp [get_anchor_candle, h2]

/-- C10 instantiated at the empty series and at a concrete two-row series. -/
theorem c10_anchor_candle_witness :
    get_anchor_candle ([] : List Candle) = none
    ∧ get_anchor_candle ex_c10
      = some ⟨(ex_c10.get ⟨ex_c10.length - 2, by norm_num [ex_c10]⟩).open_,
          (ex_c10.get ⟨ex_c10.length - 2, by norm_num [ex_c10]⟩).high,
          (ex_c10.get ⟨ex_c10.length - 2, by norm_num [ex_c10]⟩).low,
          (ex_c10.get ⟨ex_c10.length - 2, by norm_num [ex_c10]⟩).close,
          (ex_c10.get ⟨ex_c10.length - 2, by norm_num [ex_c10]⟩).volume, true⟩ :=
  ⟨(c10_anchor_candle []).1 (by norm_num),
   (c10_anchor_candle ex_c10).2 (by norm_num [ex_c10])⟩

/-- C5: on the one-candle series whose close is 0 no pivot qualifies, the
±2% fallbacks are 0·1.02 = 0 and 0·0.98 = 0, and the resistance level 0 is
not strictly above the current price 0. -/
theorem c5_counterexample :
    (identify_support_resistance ex_c5).current_price = 0
    ∧ (identify_support_resistance ex_c5).resistance = [0]
    ∧ (identify_support_resistance ex_c5).support = [0]
    ∧ ¬ (∀ r ∈ (identify_support_resistance ex_c5).resistance,
        (identify_support_resistance ex_c5).current_price < r) := by
  have hev : identify_support_resistance ex_c5 = ⟨[0], [0], 0, 0⟩ := by
    norm_num [identify_support_resistance, ex_c5, mkCandle, pivot_highs, pivot_lows,
      is_pivot_high, is_pivot_low, centered_window, lastN,
      show List.range 1 = [0] from rfl]
  rw [hev]
  norm_num

/-- On a nonempty series, `identify_support_resistance` unfolds to its
filter/fallback record at the last close. -/
theorem identify_sr_nonempty_eq (df : List Candle) (hne : df ≠ []) :
    identify_support_resistance df =
      let p := (df.getLast hne).close
      let rl := (pivot_highs df).filter fun x => p * 1.001 < x
      let sl := (pivot_lows df).filter fun x => x < p * 0.999
      ⟨if rl = [] then [p * 1.02] else lastN 3 rl,
       if sl = [] then [p * 0.98] else lastN 3 sl, p, rl.length + sl.length⟩ := by
  simp only [identify_support_resistance, List.getLast?_eq_getLast (l := df) hne]

/-- C5 (amended): for every nonempty candle series whose current price (the
last close) is positive, every resistance level is strictly above the
current price, every support level strictly below it, neither list is empty,
and whenever no pivot qualifies on a side the single synthetic ±2% fallback
level is substituted. -/
theorem c5_support_resistance (df : List Candle) (hne : df ≠ [])
    (hpos : 0 < (identify_support_resistance df).current_price) :
    (∀ r ∈ (identify_support_resistance df).resistance,
      (identify_support_resistance df).current_price < r)
    ∧ (∀ s ∈ (identify_support_resistance df).support,
      s < (identify_support_resistance df).current_price)
    ∧ (identify_support_resistance df).resistance ≠ []
    ∧ (identify_support_resistance df).support ≠ []
    ∧ ((pivot_highs df).filter
        (fun x => (identify_support_resistance df).current_price * 1.001 < x) = []
      → (identify_support_resistance df).resistance
        = [(identify_support_resistance df).current_price * 1.02])
    ∧ ((pivot_lows df).filter
        (fun x => x < (identify_support_resistance df).current_price * 0.999) = []
      → (identify_support_resistance df).support
        = [(identify_support_resistance df).current_price * 0.98]) := by
  have hsr := identify_sr_nonempty_eq df hne
  simp only [hsr] at hpos ⊢
  refine ⟨?_, ?_, ?_, ?_, ?_, ?_⟩
  · intro r hr
    by_cases hE : (pivot_highs df).filter
        (fun x => (df.getLast hne).close * 1.001 < x) = []
    · rw [if_pos hE] at hr
      rw [List.mem_singleton] at hr
      rw [hr]
      linarith
    · rw [if_neg hE] at hr
      have hr2 : r ∈ (pivot_highs df).filter
          (fun x => (df.getLast hne).close * 1.001 < x) := List.mem_of_mem_drop hr
      rw [List.mem_filter] at hr2
      have hgt := of_decide_eq_true hr2.2
      linarith
  · intro s hs
    by_cases hE : (pivot_lows df).filter
        (fun x => x < (df.getLast hne).close * 0.999) = []
    · rw [if_pos hE] at hs
      rw [List.mem_singleton] at hs
      rw [hs]
      linarith
    · rw [if_neg hE] at hs
      have hs2 : s ∈ (pivot_lows df).filter
          (fun x => x < (df.getLast hne).close * 0.999) := List.mem_of_mem_drop hs
      rw [List.mem_filter] at hs2
      have hlt := of_decide_eq_true hs2.2
      linarith
  · by_cases hE : (pivot_highs df).filter
        (fun x => (df.getLast hne).close * 1.001 < x) = []
    · rw [if_pos hE]
      simp
    · rw [if_neg hE]
      have h1 : 0 < ((pivot_highs df).filter
          (fun x => (df.getLast hne).close * 1.001 < x)).length :=
        List.length_pos.mpr hE
      rw [← List.length_pos, lastN, List.length_drop]
      omega
  · by_cases hE : (pivot_lows df).filter
        (fun x => x < (df.getLast hne).close * 0.999) = []
    · rw [if_pos hE]
      simp
    · rw [if_neg hE]
      have h1 : 0 < ((pivot_lows df).filter
          (fun x => x < (df.getLast hne).close * 0.999)).length :=
        List.length_pos.mpr hE
      rw [← List.length_pos, lastN, List.length_drop]
      omega
  · intro hE
    rw [if_pos hE]
  · intro hE
    rw [if_pos hE]

/-- C5 (amended) instantiated at the one-candle series with close 100. -/
theorem c5_support_resistance_witness :
    (∀ r ∈ (identify_support_resistance ex_c5w).resistance,
      (identify_support_resistance ex_c5w).current_price < r)
    ∧ (∀ s ∈ (identify_support_resistance ex_c5w).support,
      s < (identify_support_resistance ex_c5w).current_price)
    ∧ (identify_support_resistance ex_c5w).resistance ≠ []
    ∧ (identify_support_resistance ex_c5w).support ≠ []
    ∧ ((pivot_highs ex_c5w).filter
        (fun x => (identify_support_resistance ex_c5w).current_price * 1.001 < x) = []
      → (identify_support_resistance ex_c5w).resistance
        = [(identify_support_resistance ex_c5w).current_price * 1.02])
    ∧ ((pivot_lows ex_c5w).filter
        (fun x => x < (identify_support_resistance ex_c5w).current_price * 0.999) = []
      → (identify_support_resistance ex_c5w).support
        = [(identify_support_resistance ex_c5w).current_price * 0.98]) :=
  c5_support_resistance ex_c5w (by simp [ex_c5w])
    (by norm_num [identify_support_resistance, ex_c5w, mkCandle])

end CryptoBot
